import Mathlib

/-!
Shallow embedding of the exchange-matching server (`src/server.py`).

Accounts, positions, orders and executions are modelled as lists of
records; money and share quantities are exact rationals (the store's
decimal columns), timestamps are naturals drawn from a per-database
counter.  Each handler of the Python class `ExchangeServer` is
translated into a pure function on this state.  Python runtime
exceptions that the source can raise (`AttributeError` from the
misspelled `cur.execuet`, `NameError` from the unbound `match_id`)
are modelled explicitly with an error type, since the handlers catch
them and roll the transaction back.
-/

namespace Exchange

/-- Row of the `accounts` table. -/
structure Account where
  account_id : String
  balance : ℚ
deriving Repr, DecidableEq

/-- Row of the `positions` table (composite key `(account_id, symbol)`). -/
structure Position where
  account_id : String
  symbol : String
  amount : ℚ
deriving Repr, DecidableEq

/-- Row of the `orders` table.  `amount` is signed (positive = buy). -/
structure Order where
  order_id : ℕ
  account_id : String
  symbol : String
  amount : ℚ
  limit_price : ℚ
  remaining_amount : ℚ
  status : String
  time_created : ℕ
deriving Repr, DecidableEq

/-- Row of the append-only `executions` table. -/
structure Execution where
  order_id : ℕ
  shares : ℚ
  price : ℚ
  time_executed : ℕ
deriving Repr, DecidableEq

/-- The committed database state.  `now` is the clock used to stamp new
rows (`time_created` / `time_executed` default to the current time). -/
structure DB where
  accounts : List Account
  positions : List Position
  symbols : List String
  orders : List Order
  executions : List Execution
  next_order_id : ℕ
  now : ℕ
deriving Repr, DecidableEq

/-- Status literal written by `_handle_order` on insert. -/
def statusOpen : String := "open"

/-- Status literal written by `_handle_cancel` (line 536: `SET status = 'cancelled'`). -/
def statusCancelledWritten : String := "cancelled"

/-- Status literal tested by `_handle_query` (line 472: `if status == 'canceled'`). -/
def statusCanceledQueried : String := "canceled"

/-- Status literal for fully filled orders. -/
def statusExecuted : String := "executed"

/-- `SELECT ... FROM accounts WHERE account_id = %s` with `fetchone`. -/
def findAccount (db : DB) (aid : String) : Option Account :=
  db.accounts.find? (fun a => a.account_id == aid)

/-- `UPDATE accounts SET balance = balance + delta WHERE account_id = %s`. -/
def updateBalance (db : DB) (aid : String) (delta : ℚ) : DB :=
  { db with accounts :=
      db.accounts.map (fun a =>
        if a.account_id == aid then { a with balance := a.balance + delta } else a) }

/-- `SELECT ... FROM positions WHERE account_id = %s AND symbol = %s` with `fetchone`. -/
def findPosition (db : DB) (aid sym : String) : Option Position :=
  db.positions.find? (fun p => p.account_id == aid && p.symbol == sym)

/-- `UPDATE positions SET amount = amount + delta WHERE account_id = %s AND symbol = %s`. -/
def updatePositionAmount (db : DB) (aid sym : String) (delta : ℚ) : DB :=
  { db with positions :=
      db.positions.map (fun p =>
        if p.account_id == aid && p.symbol == sym then { p with amount := p.amount + delta } else p) }

/-- `INSERT INTO positions ... ON CONFLICT (account_id, symbol) DO UPDATE
SET amount = positions.amount + EXCLUDED.amount`. -/
def upsertPosition (db : DB) (aid sym : String) (delta : ℚ) : DB :=
  if (findPosition db aid sym).isSome then updatePositionAmount db aid sym delta
  else { db with positions := db.positions ++ [⟨aid, sym, delta⟩] }

/-- `SELECT ... FROM orders WHERE order_id = %s` with `fetchone`. -/
def findOrder (db : DB) (oid : ℕ) : Option Order :=
  db.orders.find? (fun o => o.order_id == oid)

/-- WHERE clause of the buy-side candidate query in `_match_order`
(lines 323-331): open sell orders on the symbol priced at or below the
new buy's limit. -/
def buyCandPred (sym : String) (limit : ℚ) (o : Order) : Bool :=
  o.symbol == sym && o.status == statusOpen
    && decide (o.amount < 0) && decide (o.limit_price ≤ limit)

/-- WHERE clause of the sell-side candidate query in `_match_order`
(lines 333-341): open buy orders on the symbol priced at or above the
new sell's limit. -/
def sellCandPred (sym : String) (limit : ℚ) (o : Order) : Bool :=
  o.symbol == sym && o.status == statusOpen
    && decide (0 < o.amount) && decide (limit ≤ o.limit_price)

/-- `ORDER BY limit_price ASC, time_created ASC`: ascending limit
price, ties by ascending creation time. -/
def priceTimeAsc (a b : Order) : Prop :=
  a.limit_price < b.limit_price
    ∨ (a.limit_price = b.limit_price ∧ a.time_created ≤ b.time_created)

/-- `ORDER BY limit_price DESC, time_created ASC`: descending limit
price, ties by ascending creation time. -/
def priceTimeDesc (a b : Order) : Prop :=
  b.limit_price < a.limit_price
    ∨ (a.limit_price = b.limit_price ∧ a.time_created ≤ b.time_created)

instance : DecidableRel priceTimeAsc := fun a b =>
  inferInstanceAs (Decidable (a.limit_price < b.limit_price
    ∨ (a.limit_price = b.limit_price ∧ a.time_created ≤ b.time_created)))

instance : DecidableRel priceTimeDesc := fun a b =>
  inferInstanceAs (Decidable (b.limit_price < a.limit_price
    ∨ (a.limit_price = b.limit_price ∧ a.time_created ≤ b.time_created)))

instance : IsTrans Order priceTimeAsc := by
  constructor
  intro a b c hab hbc
  unfold priceTimeAsc at hab hbc ⊢
  rcases hab with h1 | ⟨h1, h1t⟩ <;> rcases hbc with h2 | ⟨h2, h2t⟩
  · exact Or.inl (h1.trans h2)
  · exact Or.inl (h2 ▸ h1)
  · exact Or.inl (h1 ▸ h2)
  · exact Or.inr ⟨h1.trans h2, h1t.trans h2t⟩

instance : IsTotal Order priceTimeAsc := by
  constructor
  intro a b
  unfold priceTimeAsc
  rcases lt_trichotomy a.limit_price b.limit_price with h | h | h
  · exact Or.inl (Or.inl h)
  · rcases Nat.le_total a.time_created b.time_created with ht | ht
    · exact Or.inl (Or.inr ⟨h, ht⟩)
    · exact Or.inr (Or.inr ⟨h.symm, ht⟩)
  · exact Or.inr (Or.inl h)

instance : IsTrans Order priceTimeDesc := by
  constructor
  intro a b c hab hbc
  unfold priceTimeDesc at hab hbc ⊢
  rcases hab with h1 | ⟨h1, h1t⟩ <;> rcases hbc with h2 | ⟨h2, h2t⟩
  · exact Or.inl (h2.trans h1)
  · exact Or.inl (h2 ▸ h1)
  · exact Or.inl (h1 ▸ h2)
  · exact Or.inr ⟨h1.trans h2, h1t.trans h2t⟩

instance : IsTotal Order priceTimeDesc := by
  constructor
  intro a b
  unfold priceTimeDesc
  rcases lt_trichotomy a.limit_price b.limit_price with h | h | h
  · exact Or.inr (Or.inl h)
  · rcases Nat.le_total a.time_created b.time_created with ht | ht
    · exact Or.inl (Or.inr ⟨h, ht⟩)
    · exact Or.inr (Or.inr ⟨h.symm, ht⟩)
  · exact Or.inl (Or.inl h)

/-- The candidate counter-orders fetched (under `FOR UPDATE`) by
`_match_order`, lines 321-342: filter by the side-dependent WHERE
clause and sort by the side-dependent ORDER BY key. -/
def matchCandidates (db : DB) (sym : String) (amount limit : ℚ) : List Order :=
  if 0 < amount then
    (db.orders.filter (buyCandPred sym limit)).insertionSort priceTimeAsc
  else
    (db.orders.filter (sellCandPred sym limit)).insertionSort priceTimeDesc

/-- A Python runtime exception raised inside `_match_order`.
`attr` models the `AttributeError` raised by the misspelled
`cur.execuet` (lines 358 and 366); `nameErr` models the `NameError`
raised at line 440, where `match_id` is referenced after the loop but
is unbound whenever no loop iteration ran to that point. -/
inductive PyError where
  | attr
  | nameErr
deriving Repr, DecidableEq

/-- Body of the matching loop of `_match_order` (lines 344-441).

Tracing the source: if the candidate list is empty the `for` loop never
binds `match_id`, and line 438-441 (`UPDATE ... WHERE order_id = %s`,
parameterised with `match_id`) raises `NameError`.  If a candidate
exists and `remaining_amount <= 0`, the loop `break`s before unpacking
the candidate and line 438 again raises `NameError`.  Otherwise the
first iteration computes the execution price (line 355) and quantity
(line 356) and then calls `cur.execuet` (line 358), which raises
`AttributeError` before any row is written.  Hence no iteration ever
completes and the loop never writes to the database. -/
def matchLoop (db : DB) (oid : ℕ) (limit remaining : ℚ) :
    List Order → Except PyError DB
  | [] => Except.error PyError.nameErr
  | m :: _ =>
    if remaining ≤ 0 then Except.error PyError.nameErr
    else
      let orderTime := ((findOrder db oid).map (fun o => o.time_created)).getD 0
      let executionPrice := if m.time_created < orderTime then m.limit_price else limit
      let executionAmount := min remaining m.remaining_amount
      have _ : ℚ := executionPrice
      have _ : ℚ := executionAmount
      Except.error PyError.attr

/-- `_match_order` (lines 316-441): fetch the candidate counter-orders
and run the matching loop with `remaining := |amount|`. -/
def matchOrder (db : DB) (oid : ℕ) (sym : String) (amount limit : ℚ) :
    Except PyError DB :=
  matchLoop db oid limit |amount| (matchCandidates db sym amount limit)

/-- Message of `_handle_order` when amount or limit fails to parse as float. -/
def msgInvalidAmountOrLimit : String := "Invalid amount or limit value"

/-- Message of `_handle_order` when the buy account row is missing. -/
def msgAccountNotFound : String := "Account not found"

/-- Message of `_handle_order` when `balance < amount * limit_price`. -/
def msgInsufficientFunds : String := "Insufficient funds"

/-- Message of `_handle_order` when the position is missing or too small. -/
def msgInsufficientShares : String := "Insufficient shares"

/-- Message of the generic `except` clause of `_handle_order` / `_handle_cancel`. -/
def msgDatabaseError : String := "Database error"

/-- Message of `_handle_query` / `_handle_cancel` for an unparseable order id. -/
def msgInvalidTransId : String := "Invalid transaction ID"

/-- Message of `_handle_query` / `_handle_cancel` when no order row matches. -/
def msgOrderNotFound : String := "Order not found"

/-- Message of `_handle_cancel` for a non-open or fully-filled order. -/
def msgCannotCancel : String := "Order cannot be canceled"

/-- Outcome of `_handle_order` (the XML fragment it returns). -/
inductive OrderResult where
  | opened (sym : String) (amount limit : ℚ) (oid : ℕ)
  | orderError (msg : String)
deriving Repr, DecidableEq

/-- A database connection inside `_handle_transaction`: the state
committed so far and the uncommitted working state of the open
transaction.  `conn.commit()` copies working over committed;
`conn.rollback()` copies committed over working. -/
structure Conn where
  committed : DB
  working : DB
deriving Repr, DecidableEq

/-- `_handle_order` (lines 247-313).  The parsed `amount`/`limit` are
`Option ℚ` (`none` models a float-parse failure).

Tracing the source: in the buy branch the pre-debit (lines 274-277) is
the last statement — the order insert, the matcher call, the commit and
the `<opened>` return (lines 294-308) are all indented into the sell
branch — so a successful buy debits the working state and then falls
off the function, returning Python `None`.  In the sell branch the
position is debited, the order row is inserted, and `_match_order` is
invoked; since `_match_order` always raises (see `matchLoop`), the
`except` clause rolls the transaction back and returns a database
error. -/
def handleOrder (conn : Conn) (acct sym : String) (amt lim : Option ℚ) :
    Option OrderResult × Conn :=
  match amt, lim with
  | some amount, some limit =>
    if 0 < amount then
      match findAccount conn.working acct with
      | none => (some (OrderResult.orderError msgAccountNotFound), conn)
      | some a =>
        let limitCost := amount * limit
        if a.balance < limitCost then
          (some (OrderResult.orderError msgInsufficientFunds), conn)
        else
          (none, { conn with working := updateBalance conn.working acct (-limitCost) })
    else
      let absAmount := |amount|
      match findPosition conn.working acct sym with
      | none => (some (OrderResult.orderError msgInsufficientShares), conn)
      | some p =>
        if p.amount < absAmount then
          (some (OrderResult.orderError msgInsufficientShares), conn)
        else
          let db1 := updatePositionAmount conn.working acct sym (-absAmount)
          let oid := db1.next_order_id
          let db2 := { db1 with
            orders := db1.orders ++
              [⟨oid, acct, sym, amount, limit, absAmount, statusOpen, db1.now⟩],
            next_order_id := oid + 1,
            now := db1.now + 1 }
          match matchOrder db2 oid sym amount limit with
          | Except.error _ =>
            (some (OrderResult.orderError msgDatabaseError),
             { conn with working := conn.committed })
          | Except.ok db3 =>
            (some (OrderResult.opened sym amount limit oid), ⟨db3, db3⟩)
  | _, _ => (some (OrderResult.orderError msgInvalidAmountOrLimit), conn)

/-- `ORDER BY time_executed` on execution rows. -/
def execTimeLe (a b : Execution) : Prop := a.time_executed ≤ b.time_executed

instance : DecidableRel execTimeLe := fun a b =>
  inferInstanceAs (Decidable (a.time_executed ≤ b.time_executed))

/-- Executions with `shares > 0` for one order, `ORDER BY time_executed`
(the fill rows listed by `_handle_query` and `_handle_cancel`). -/
def fillRows (db : DB) (oid : ℕ) : List Execution :=
  (db.executions.filter
      (fun e => e.order_id == oid && decide (0 < e.shares))).insertionSort execTimeLe

/-- `SELECT MAX(time_executed) FROM executions WHERE order_id = %s AND shares = 0`
(`none` models the SQL `NULL` aggregate over an empty set). -/
def cancelMarkTime (db : DB) (oid : ℕ) : Option ℕ :=
  ((db.executions.filter
      (fun e => e.order_id == oid && e.shares == 0)).map
    (fun e => e.time_executed)).max?

/-- Outcome of `_handle_query`: either an error fragment or a
`<status id=...>` fragment with its optional open node, optional
cancellation node `(shares, time)`, and fill nodes. -/
inductive QueryResult where
  | queryError (msg : String)
  | statusResult (oid : ℕ) (openShares : Option ℚ)
      (canceledNode : Option (ℚ × ℕ)) (fills : List Execution)
deriving Repr, DecidableEq

/-- `_handle_query` (lines 443-501).  The open node is emitted when
`status == 'open'` and `remaining > 0`; the cancellation node is
emitted when `status == 'canceled'` — note the single-l spelling tested
here, versus the double-l spelling written by `_handle_cancel`.  When
the `MAX` aggregate is `NULL`, `int(cancel_time.timestamp())` raises
and the handler answers with a database error. -/
def handleQuery (db : DB) (tid : Option ℕ) : QueryResult :=
  match tid with
  | none => QueryResult.queryError msgInvalidTransId
  | some t =>
    match findOrder db t with
    | none => QueryResult.queryError msgOrderNotFound
    | some o =>
      let openNode :=
        if o.status == statusOpen && decide (0 < o.remaining_amount) then
          some o.remaining_amount
        else none
      if o.status == statusCanceledQueried then
        match cancelMarkTime db t with
        | none => QueryResult.queryError msgDatabaseError
        | some ct =>
          QueryResult.statusResult t openNode (some (o.remaining_amount, ct)) (fillRows db t)
      else
        QueryResult.statusResult t openNode none (fillRows db t)

/-- Outcome of `_handle_cancel`: either an error fragment or the
cancellation fragment carrying `(shares, time)` plus the fill nodes. -/
inductive CancelResult where
  | cancelError (msg : String)
  | canceledResult (shares : ℚ) (time : ℕ) (fills : List Execution)
deriving Repr, DecidableEq

/-- `_handle_cancel` (lines 504-597) acting on the working state.
On the error paths it returns before writing anything; on the success
path it marks the order `'cancelled'`, appends the single
`(shares=0, price=0)` execution row, and refunds the unfilled portion
to the order's own account (buy: `remaining * limit_price` to the
balance; sell: `remaining` to the position). -/
def handleCancel (db : DB) (tid : Option ℕ) : CancelResult × DB :=
  match tid with
  | none => (CancelResult.cancelError msgInvalidTransId, db)
  | some t =>
    match findOrder db t with
    | none => (CancelResult.cancelError msgOrderNotFound, db)
    | some o =>
      if o.status ≠ statusOpen ∨ o.remaining_amount ≤ 0 then
        (CancelResult.cancelError msgCannotCancel, db)
      else
        let db1 := { db with
          orders := db.orders.map (fun x : Order =>
            if x.order_id == t then { x with status := statusCancelledWritten } else x) }
        let db2 := { db1 with
          executions := db1.executions ++ [(⟨t, 0, 0, db1.now⟩ : Execution)],
          now := db1.now + 1 }
        let db3 :=
          if 0 < o.amount then
            updateBalance db2 o.account_id (o.remaining_amount * o.limit_price)
          else
            updatePositionAmount db2 o.account_id o.symbol o.remaining_amount
        (CancelResult.canceledResult o.remaining_amount db.now (fillRows db3 t), db3)

/-- A child of a `<transactions>` envelope.  Numeric attributes are
`Option` values (`none` models a missing or unparseable attribute). -/
inductive TxnChild where
  | orderChild (sym : String) (amount limit : Option ℚ)
  | queryChild (id : Option ℕ)
  | cancelChild (id : Option ℕ)
  | otherChild (tag : String)
deriving Repr, DecidableEq

/-- One entry of the `results` list built by `_handle_transaction`.
`invalidAccount` is the per-child `Invalid account` error emitted when
the envelope's account does not exist. -/
inductive ChildResult where
  | orderRes (r : OrderResult)
  | queryRes (r : QueryResult)
  | cancelRes (r : CancelResult)
  | invalidAccount
deriving Repr, DecidableEq

/-- The preflight loop of `_handle_transaction` (lines 212-223): when
the envelope account is missing, each order/query/cancel child is
answered with an `Invalid account` error; other child tags produce
nothing. -/
def invalidAccountResult : TxnChild → Option ChildResult
  | TxnChild.orderChild _ _ _ => some ChildResult.invalidAccount
  | TxnChild.queryChild _ => some ChildResult.invalidAccount
  | TxnChild.cancelChild _ => some ChildResult.invalidAccount
  | TxnChild.otherChild _ => none

/-- Dispatch of one child (lines 226-237).  An order child appends its
result — which is Python `None` on the fallen-through buy path.  A
query child reads the working state.  A cancel child commits on
success (line 591) and leaves the connection untouched on its error
paths, which return before any write.  Unknown child tags `continue`
without appending anything. -/
def processChild (conn : Conn) (acct : String) :
    TxnChild → List (Option ChildResult) × Conn
  | TxnChild.orderChild sym a l =>
    let r := handleOrder conn acct sym a l
    ([r.1.map ChildResult.orderRes], r.2)
  | TxnChild.queryChild tid =>
    ([some (ChildResult.queryRes (handleQuery conn.working tid))], conn)
  | TxnChild.cancelChild tid =>
    let r := handleCancel conn.working tid
    match r.1 with
    | CancelResult.cancelError m =>
      ([some (ChildResult.cancelRes (CancelResult.cancelError m))], conn)
    | res => ([some (ChildResult.cancelRes res)], ⟨r.2, r.2⟩)
  | TxnChild.otherChild _ => ([], conn)

/-- The child loop of `_handle_transaction`. -/
def processChildren (conn : Conn) (acct : String) :
    List TxnChild → List (Option ChildResult) × Conn
  | [] => ([], conn)
  | c :: cs =>
    let r := processChild conn acct c
    let rest := processChildren r.2 acct cs
    (r.1 ++ rest.1, rest.2)

/-- Result fragments of `_handle_create`. -/
inductive CreateResult where
  | createdAccount (id : String)
  | createdPosition (sym id : String)
  | createError (msg : String)
deriving Repr, DecidableEq

/-- A server response: a `<results>` element, or one of the top-level
error responses of `_process_xml` / `_handle_transaction`. -/
inductive Response where
  | results (items : List ChildResult)
  | createResults (items : List CreateResult)
  | unknownRequestType
  | invalidXmlFormat
  | internalError
deriving Repr, DecidableEq

/-- `_handle_transaction` (lines 203-245), returning the response and
the state left committed.  After the child loop the source evaluates
`''.join(results)`; a Python `None` in the list (the fallen-through
buy path of `_handle_order`) makes `join` raise `TypeError`, so the
generic `except` clause rolls back the uncommitted work and answers
`Internal server error` — anything already committed by a child
remains committed.  A connection returned to the pool with an open
transaction is rolled back, so uncommitted working state is discarded
in the normal path as well. -/
def handleTransaction (db : DB) (acct : String) (children : List TxnChild) :
    Response × DB :=
  if (findAccount db acct).isSome then
    let r := processChildren ⟨db, db⟩ acct children
    if r.1.any (fun x => x.isNone) then
      (Response.internalError, r.2.committed)
    else
      (Response.results (r.1.filterMap id), r.2.committed)
  else
    (Response.results (children.filterMap invalidAccountResult), db)

/-- A child of a `<create>` envelope: an `<account>` element or a
`<symbol>` element with its seed positions.  `none` models a missing
or unparseable numeric attribute. -/
inductive CreateItem where
  | accountItem (id : String) (balance : Option ℚ)
  | symbolItem (sym : String) (seeds : List (String × Option ℚ))
deriving Repr, DecidableEq

/-- Message of `_handle_create` for an unparseable balance. -/
def msgInvalidBalance : String := "Invalid balance value"

/-- Message of `_handle_create` when the account row already exists. -/
def msgAccountExists : String := "Account already exists"

/-- Message of `_handle_create` for an unparseable seed amount. -/
def msgInvalidAmount : String := "Invalid amount"

/-- Message of `_handle_create` when seeding a missing account. -/
def msgAccountMissing : String := "Account does not exist"

/-- One seed position of a `<symbol>` create child (lines 163-192):
parse the amount, check the account exists, and additively upsert the
position; each write is committed on its own. -/
def seedPosition (db : DB) (sym id : String) (amt : Option ℚ) : CreateResult × DB :=
  match amt with
  | none => (CreateResult.createError msgInvalidAmount, db)
  | some a =>
    if (findAccount db id).isSome then
      (CreateResult.createdPosition sym id, upsertPosition db id sym a)
    else
      (CreateResult.createError msgAccountMissing, db)

/-- The seed-position loop of a `<symbol>` create child. -/
def seedPositions (db : DB) (sym : String) :
    List (String × Option ℚ) → List CreateResult × DB
  | [] => ([], db)
  | s :: ss =>
    let r := seedPosition db sym s.1 s.2
    let rest := seedPositions r.2 sym ss
    (r.1 :: rest.1, rest.2)

/-- One child of `_handle_create` (lines 122-192).  An `<account>`
child inserts a fresh account row, or rolls back with an error when
the row exists (`IntegrityError`).  A `<symbol>` child idempotently
inserts the symbol (`ON CONFLICT DO NOTHING`) and then processes its
seed positions. -/
def applyCreateItem (db : DB) : CreateItem → List CreateResult × DB
  | CreateItem.accountItem id bal =>
    match bal with
    | none => ([CreateResult.createError msgInvalidBalance], db)
    | some b =>
      if (findAccount db id).isSome then
        ([CreateResult.createError msgAccountExists], db)
      else
        ([CreateResult.createdAccount id],
         { db with accounts := db.accounts ++ [(⟨id, b⟩ : Account)] })
  | CreateItem.symbolItem sym seeds =>
    let db1 := if db.symbols.contains sym then db
               else { db with symbols := db.symbols ++ [sym] }
    seedPositions db1 sym seeds

/-- `_handle_create` (lines 117-201): fold over the envelope children. -/
def handleCreate (db : DB) : List CreateItem → List CreateResult × DB
  | [] => ([], db)
  | i :: is =>
    let r := applyCreateItem db i
    let rest := handleCreate r.2 is
    (r.1 ++ rest.1, rest.2)

/-- A parsed wire request, by root tag.  `transactionsTag` is the root
element `<transactions id=...>` named by the protocol; `transactionTag`
is a root element literally named `transaction`, the string that the
dispatcher actually compares against. -/
inductive Request where
  | createReq (items : List CreateItem)
  | transactionsTag (acct : String) (children : List TxnChild)
  | transactionTag (acct : String) (children : List TxnChild)
  | unknownTag (tag : String)
  | malformed
deriving Repr, DecidableEq

/-- `_process_xml` (lines 98-115) composed with the committed-state
effect of the handler it dispatches to.

Tracing the source: the dispatcher compares `root.tag` against
`'create'` and `'transaction'`.  A root tag `transactions` therefore
matches neither branch and is answered `Unknown request type` without
touching the database.  A root tag `transaction` takes the second
branch, which calls `self._handle_transactions(root)` — a method that
does not exist — so `AttributeError` is raised before any database
access and the generic `except` answers `Internal server error`.
Malformed XML is answered `Invalid XML format`. -/
def processRequest (db : DB) : Request → Response × DB
  | Request.createReq items =>
    let r := handleCreate db items
    (Response.createResults [], r.2)
  | Request.transactionsTag _ _ => (Response.unknownRequestType, db)
  | Request.transactionTag _ _ => (Response.internalError, db)
  | Request.unknownTag _ => (Response.unknownRequestType, db)
  | Request.malformed => (Response.invalidXmlFormat, db)

/-- A whole history of wire requests, applied to the committed state. -/
def processHistory (db : DB) : List Request → DB
  | [] => db
  | r :: rs => processHistory (processRequest db r).2 rs

/-- The conserved quantity of spec §3.1: total account balances plus
the escrow of open buy orders (`remaining_amount * limit_price`). -/
def funds (db : DB) : ℚ :=
  (db.accounts.map (fun a => a.balance)).sum
    + ((db.orders.filter (fun o => o.status == statusOpen && decide (0 < o.amount))).map
        (fun o => o.remaining_amount * o.limit_price)).sum

/-- The deposit made by one `<create>` child: the balance of an
`<account>` child that actually inserts a row, 0 otherwise. -/
def createItemDeposit (db : DB) : CreateItem → ℚ
  | CreateItem.accountItem id bal =>
    match bal with
    | none => 0
    | some b => if (findAccount db id).isSome then 0 else b
  | CreateItem.symbolItem _ _ => 0

/-- Total deposit of a `<create>` envelope. -/
def createDeposit (db : DB) : List CreateItem → ℚ
  | [] => 0
  | i :: is => createItemDeposit db i + createDeposit (applyCreateItem db i).2 is

/-- Deposit made by one wire request: only `<create>` deposits money. -/
def requestDeposit (db : DB) : Request → ℚ
  | Request.createReq items => createDeposit db items
  | _ => 0

/-- Total deposit of a request history. -/
def historyDeposit (db : DB) : List Request → ℚ
  | [] => 0
  | r :: rs => requestDeposit db r + historyDeposit (processRequest db r).2 rs

/-- Concrete state for C1: one funded account holding 100 GOOG shares
(the repository's own `test_order` scenario). -/
def dbC1 : DB := ⟨[⟨"test3", 10000⟩], [⟨"test3", "GOOG", 100⟩], ["GOOG"], [], [], 1, 0⟩

/-- Account id of the C1 scenario. -/
def acctTest3 : String := "test3"

/-- Symbol of the C1 scenario. -/
def symGOOG : String := "GOOG"

/-- Concrete state for C2: accounts A (balance 100) and B (balance 50),
with B owning an open sell order (id 7, 5 shares at limit 10). -/
def dbC2 : DB := ⟨[⟨"A", 100⟩, ⟨"B", 50⟩], [⟨"B", "SYM", 5⟩], ["SYM"],
  [⟨7, "B", "SYM", -5, 10, 5, "open", 0⟩], [], 8, 1⟩

/-- Account id used as envelope account in several scenarios. -/
def acctA : String := "A"

/-- Account id B. -/
def acctB : String := "B"

/-- Symbol of the C2 scenario. -/
def symSYM : String := "SYM"

/-- The C2 envelope: a funded buy order followed by a cancel of the
pre-existing open order 7. -/
def childrenC2 : List TxnChild :=
  [TxnChild.orderChild symSYM (some 2) (some 10), TxnChild.cancelChild (some 7)]

/-- Concrete state for C3: K rests an open buy order (id 9, 20 shares
at limit 55), B holds 20 shares of Z and is about to sell. -/
def dbC3 : DB := ⟨[⟨"K", 1000⟩, ⟨"B", 0⟩], [⟨"B", "Z", 20⟩], ["Z"],
  [⟨9, "K", "Z", 20, 55, 20, "open", 1⟩], [], 10, 2⟩

/-- Symbol of the C3 scenario. -/
def symZ : String := "Z"

/-- Concrete state for C4. -/
def dbC4 : DB := ⟨[⟨"A", 100⟩], [], [], [], [], 1, 0⟩

/-- Concrete state for C5: S1 rests an open buy order (id 4, 30 shares
at limit 60), S2 holds 30 shares of W and is about to sell at 58. -/
def dbC5 : DB := ⟨[⟨"S1", 5000⟩, ⟨"S2", 0⟩], [⟨"S2", "W", 30⟩], ["W"],
  [⟨4, "S1", "W", 30, 60, 30, "open", 1⟩], [], 5, 3⟩

/-- Account id S2. -/
def acctS2 : String := "S2"

/-- Symbol of the C5 scenario. -/
def symW : String := "W"

/-- Concrete state for C6: a funded account holding 100 IBM shares and
an empty order book (the spec's query-open scenario). -/
def dbC6 : DB := ⟨[⟨"q", 10000⟩], [⟨"q", "IBM", 100⟩], ["IBM"], [], [], 1, 0⟩

/-- Account id q. -/
def acctQ : String := "q"

/-- Symbol of the C6 scenario. -/
def symIBM : String := "IBM"

/-- Concrete state for C7's witness: four open sell orders and one open
buy order on symbol X with assorted prices and creation times. -/
def dbC7 : DB := ⟨[], [], ["X"],
  [⟨1, "a", "X", -3, 5, 3, "open", 2⟩, ⟨2, "b", "X", -4, 4, 4, "open", 3⟩,
   ⟨3, "c", "X", -4, 5, 4, "open", 1⟩, ⟨4, "d", "X", 6, 7, 6, "open", 1⟩,
   ⟨5, "e", "X", -9, 9, 9, "open", 0⟩], [], 6, 4⟩

/-- Symbol of the C7 witness. -/
def symX : String := "X"

/-- Concrete state for C8's witness (success case): C owns the open buy
order 1 (10 shares remaining at limit 75). -/
def dbC8s : DB := ⟨[⟨"C", 0⟩], [], ["S"], [⟨1, "C", "S", 10, 75, 10, "open", 0⟩], [], 2, 5⟩

/-- The open order of `dbC8s`. -/
def orderC8 : Order := ⟨1, "C", "S", 10, 75, 10, "open", 0⟩

/-- Concrete state for C8's witness (error case): no order 2 exists. -/
def dbC8e : DB := ⟨[⟨"C", 40⟩], [], [], [], [], 1, 0⟩

/-- Concrete state for C9: C owns the open buy order 1. -/
def dbC9 : DB := ⟨[⟨"C", 0⟩], [], ["S"], [⟨1, "C", "S", 10, 75, 10, "open", 0⟩], [], 2, 5⟩

/-- Concrete state for C10's witness: accounts A and B both exist and B
owns the open buy order 3 (4 shares remaining at limit 9). -/
def dbC10 : DB := ⟨[⟨"A", 100⟩, ⟨"B", 20⟩], [], ["S"],
  [⟨3, "B", "S", 4, 9, 4, "open", 0⟩], [], 4, 2⟩

/-- The open order of `dbC10`. -/
def orderC10 : Order := ⟨3, "B", "S", 4, 9, 4, "open", 0⟩

theorem updateBalance_orders (db : DB) (aid : String) (d : ℚ) :
    (updateBalance db aid d).orders = db.orders := rfl

theorem updateBalance_executions (db : DB) (aid : String) (d : ℚ) :
    (updateBalance db aid d).executions = db.executions := rfl

theorem updateBalance_positions (db : DB) (aid : String) (d : ℚ) :
    (updateBalance db aid d).positions = db.positions := rfl

theorem updatePositionAmount_orders (db : DB) (aid sym : String) (d : ℚ) :
    (updatePositionAmount db aid sym d).orders = db.orders := rfl

theorem updatePositionAmount_executions (db : DB) (aid sym : String) (d : ℚ) :
    (updatePositionAmount db aid sym d).executions = db.executions := rfl

theorem updatePositionAmount_accounts (db : DB) (aid sym : String) (d : ℚ) :
    (updatePositionAmount db aid sym d).accounts = db.accounts := rfl

/-- C1: fails on the code.  In the repository's own `test_order`
scenario (account `test3` with 10000 in funds and 100 GOOG shares), a
sell order `-10 @ 150` passes the pre-debit check but `_handle_order`
answers a `Database error` and rolls everything back (the matcher
always raises), instead of returning `<opened>`; and a buy order
`10 @ 5` debits the submitter but then falls off the mis-indented
function: it returns Python `None`, inserts no order row and never
runs the matcher. -/
theorem c1_handle_order_paths_broken :
    handleOrder ⟨dbC1, dbC1⟩ acctTest3 symGOOG (some (-10)) (some 150)
        = (some (OrderResult.orderError msgDatabaseError), ⟨dbC1, dbC1⟩)
      ∧ (handleOrder ⟨dbC1, dbC1⟩ acctTest3 symGOOG (some 10) (some 5)).1 = none
      ∧ ((handleOrder ⟨dbC1, dbC1⟩ acctTest3 symGOOG (some 10) (some 5)).2).working.orders = []
      ∧ ((handleOrder ⟨dbC1, dbC1⟩ acctTest3 symGOOG (some 10) (some 5)).2).working.accounts
          = [⟨acctTest3, 9950⟩] := by
  refine ⟨by decide, ?_, ?_, ?_⟩ <;>
    norm_num [handleOrder, findAccount, updateBalance, dbC1, acctTest3, symGOOG]

/-- C2: fails on the code.  Against `dbC2` (total funds 150, no open
buy orders), the envelope `<transactions id=A>` containing a funded buy
order followed by a cancel of the open order 7 commits a state whose
total funds are 130: the buy pre-debit of 20 is committed by the
sibling cancel's `conn.commit()` while the mis-indented order insert
never created the escrowing order row, so 20 units of currency vanish
without any deposit. -/
theorem c2_fund_conservation_violated :
    (handleTransaction dbC2 acctA childrenC2).1 = Response.internalError
      ∧ funds dbC2 = 150
      ∧ funds (handleTransaction dbC2 acctA childrenC2).2 = 130 := by
  refine ⟨?_, by norm_num [funds, dbC2, statusOpen], ?_⟩ <;>
    norm_num [handleTransaction, processChildren, processChild, handleOrder, handleCancel,
      handleQuery, matchOrder, matchLoop, matchCandidates, findAccount, findOrder, findPosition,
      updateBalance, updatePositionAmount, fillRows, funds, dbC2, acctA, childrenC2, symSYM,
      statusOpen, statusCancelledWritten]
  rw [if_neg (by decide : ¬ ("B" = "A"))]
  norm_num

/-- C3: fails on the code.  In `dbC3`, K's open buy order (20 @ 55)
rests on the book and B submits a matching sell `-20 @ 50`; the claim
requires the seller B to be credited `20 × price`, the buyer K's
position to grow by 20, and K to be refunded the price improvement.
Instead `_match_order` raises `AttributeError` at the misspelled
`cur.execuet` before any settlement statement runs, `_handle_order`
rolls the transaction back, and no balance, position or execution
changes at all. -/
theorem c3_settlement_never_executes :
    handleOrder ⟨dbC3, dbC3⟩ acctB symZ (some (-20)) (some 50)
        = (some (OrderResult.orderError msgDatabaseError), ⟨dbC3, dbC3⟩)
      ∧ dbC3.executions = [] := by
  refine ⟨?_, ?_⟩ <;> decide

/-- C4: fails on the code.  `_process_xml` compares the root tag
against the string `transaction`, so the protocol's actual root element
`<transactions id=...>` matches neither branch and is answered
`Unknown request type` without reaching the transaction handler; a
root literally tagged `transaction` takes the second branch, which
calls the nonexistent method `_handle_transactions` and is answered
`Internal server error`. -/
theorem c4_transactions_root_not_dispatched :
    processRequest dbC4 (Request.transactionsTag acctA [TxnChild.queryChild (some 1)])
        = (Response.unknownRequestType, dbC4)
      ∧ processRequest dbC4 (Request.transactionTag acctA [TxnChild.queryChild (some 1)])
        = (Response.internalError, dbC4) := by
  refine ⟨?_, ?_⟩ <;> decide

/-- C5: fails on the code.  In `dbC5`, S1's open buy order (30 @ 60,
created earlier) rests on the book and S2 submits a matching sell
`-30 @ 58`; the claim requires two execution rows at the resting price
60.  The loop computes the price and quantity but the insert statements
misspell `execute` (`cur.execuet`, lines 358/366, with the parameter
tuple not even passed as an argument), so `AttributeError` is raised,
the order is rolled back with a `Database error`, and the executions
table stays empty. -/
theorem c5_no_execution_rows_inserted :
    (handleOrder ⟨dbC5, dbC5⟩ acctS2 symW (some (-30)) (some 58)).1
        = some (OrderResult.orderError msgDatabaseError)
      ∧ ((handleOrder ⟨dbC5, dbC5⟩ acctS2 symW (some (-30)) (some 58)).2).committed.executions = []
      ∧ ((handleOrder ⟨dbC5, dbC5⟩ acctS2 symW (some (-30)) (some 58)).2).working.executions
          = [] := by
  refine ⟨?_, ?_, ?_⟩ <;> decide

/-- C6: fails on the code.  A sell `-5 @ 200` on an empty book (the
spec's query-open scenario) should leave the new order `open`; instead
the matching loop never runs, line 438 references the unbound loop
variable `match_id` (`NameError`) — the final status update names the
last candidate, not the new order — and `_handle_order` rolls the
insert back: the committed state contains no order at all, neither
`open` nor `executed`. -/
theorem c6_empty_book_order_rolled_back :
    handleOrder ⟨dbC6, dbC6⟩ acctQ symIBM (some (-5)) (some 200)
        = (some (OrderResult.orderError msgDatabaseError), ⟨dbC6, dbC6⟩)
      ∧ dbC6.orders = []
      ∧ matchOrder dbC6 1 symIBM (-5) 200 = Except.error PyError.nameErr := by
  exact ⟨by decide, by decide, rfl⟩

/-- C7: confirmed.  For a buy (A > 0) the candidate list is a
permutation of the open sell orders on the symbol priced at or below
the limit, pairwise ordered by ascending price with ties by ascending
creation time; for a sell (A < 0) it is a permutation of the open buy
orders priced at or above the limit, pairwise ordered by descending
price with ties by ascending creation time. -/
theorem c7_candidate_selection (db : DB) (sym : String) (A L : ℚ) :
    (0 < A →
      (matchCandidates db sym A L).Perm (db.orders.filter (buyCandPred sym L))
        ∧ (matchCandidates db sym A L).Pairwise priceTimeAsc)
    ∧ (A < 0 →
      (matchCandidates db sym A L).Perm (db.orders.filter (sellCandPred sym L))
        ∧ (matchCandidates db sym A L).Pairwise priceTimeDesc) := by
  constructor
  · intro hA
    unfold matchCandidates
    rw [if_pos hA]
    exact ⟨List.perm_insertionSort priceTimeAsc _, List.sorted_insertionSort priceTimeAsc _⟩
  · intro hA
    unfold matchCandidates
    rw [if_neg (not_lt.2 hA.le)]
    exact ⟨List.perm_insertionSort priceTimeDesc _, List.sorted_insertionSort priceTimeDesc _⟩

/-- C7 witness: the candidate characterisation evaluated on `dbC7` for
a buy at limit 5 and a sell at limit 5. -/
theorem c7_candidate_selection_witness :
    ((matchCandidates dbC7 symX 1 5).Perm (dbC7.orders.filter (buyCandPred symX 5))
        ∧ (matchCandidates dbC7 symX 1 5).Pairwise priceTimeAsc)
      ∧ ((matchCandidates dbC7 symX (-1) 5).Perm (dbC7.orders.filter (sellCandPred symX 5))
        ∧ (matchCandidates dbC7 symX (-1) 5).Pairwise priceTimeDesc) :=
  ⟨(c7_candidate_selection dbC7 symX 1 5).1 (by norm_num),
   (c7_candidate_selection dbC7 symX (-1) 5).2 (by norm_num)⟩

/-- C9: fails on the code.  After `_handle_cancel` cancels the open
order 1 of `dbC9` (its status row then reads `cancelled`, with the
double-l spelling written at line 536), a `<query id=1>` returns a
bare `<status id=1>` with no cancellation child: `_handle_query` tests
the status against the single-l spelling `canceled` (line 472), which
never matches, so the `<canceled shares time/>` node the claim
requires is not produced. -/
theorem c9_query_after_cancel_missing_node :
    handleQuery (handleCancel dbC9 (some 1)).2 (some 1)
        = QueryResult.statusResult 1 none none []
      ∧ ((findOrder (handleCancel dbC9 (some 1)).2 1).map (fun o => o.status))
          = some statusCancelledWritten
      ∧ (handleCancel dbC9 (some 1)).1
          = CancelResult.canceledResult 10 dbC9.now [] := by
  refine ⟨?_, ?_, ?_⟩ <;> decide

/-- C8: confirmed.  Cancelling an order that is open with positive
remaining amount marks it `cancelled`, appends exactly one execution
row with `shares = 0` and `price = 0`, reports the remaining amount and
the cancellation time together with the fill rows, and refunds the
unfilled portion to the order owner's own account (buy:
`remaining * limit_price` to the balance; sell: `remaining` to the
position).  Cancelling anything else — order not found, not open, or
with no remaining amount — returns an error and changes no state. -/
theorem c8_cancel_semantics (db : DB) (t : ℕ) :
    (∀ o, findOrder db t = some o → o.status = statusOpen → 0 < o.remaining_amount →
      (handleCancel db (some t)).2.executions
          = db.executions ++ [(⟨t, 0, 0, db.now⟩ : Execution)]
        ∧ (handleCancel db (some t)).2.orders
          = db.orders.map (fun x : Order =>
              if x.order_id == t then { x with status := statusCancelledWritten } else x)
        ∧ (handleCancel db (some t)).1
          = CancelResult.canceledResult o.remaining_amount db.now
              (fillRows (handleCancel db (some t)).2 t)
        ∧ (0 < o.amount →
            (handleCancel db (some t)).2.accounts
              = db.accounts.map (fun a : Account =>
                  if a.account_id == o.account_id then
                    { a with balance := a.balance + o.remaining_amount * o.limit_price }
                  else a)
              ∧ (handleCancel db (some t)).2.positions = db.positions)
        ∧ (¬ 0 < o.amount →
            (handleCancel db (some t)).2.accounts = db.accounts
              ∧ (handleCancel db (some t)).2.positions
                = db.positions.map (fun p : Position =>
                    if p.account_id == o.account_id && p.symbol == o.symbol then
                      { p with amount := p.amount + o.remaining_amount }
                    else p)))
    ∧ ((findOrder db t = none
          ∨ ∀ o, findOrder db t = some o → o.status ≠ statusOpen ∨ o.remaining_amount ≤ 0) →
        (handleCancel db (some t)).2 = db
          ∧ ((handleCancel db (some t)).1 = CancelResult.cancelError msgOrderNotFound
              ∨ (handleCancel db (some t)).1 = CancelResult.cancelError msgCannotCancel)) := by
  constructor
  · intro o hF hS hR
    have hcond : ¬ (o.status ≠ statusOpen ∨ o.remaining_amount ≤ 0) := by
      push_neg
      exact ⟨hS, hR⟩
    by_cases hb : 0 < o.amount <;>
      simp [handleCancel, hF, hcond, hb, updateBalance, updatePositionAmount]
  · intro h
    cases hF : findOrder db t with
    | none => simp [handleCancel, hF]
    | some o =>
      have hcond : o.status ≠ statusOpen ∨ o.remaining_amount ≤ 0 := by
        rcases h with h | h
        · rw [hF] at h
          exact absurd h (by simp)
        · exact h o hF
      simp [handleCancel, hF, hcond]

/-- C8 witness: the cancel characterisation evaluated on `dbC8s`
(open buy order 1, which cancels successfully) and on `dbC8e` (no
order 2 exists, so the cancel errors and changes nothing). -/
theorem c8_cancel_semantics_witness :
    ((handleCancel dbC8s (some 1)).2.executions
        = dbC8s.executions ++ [(⟨1, 0, 0, dbC8s.now⟩ : Execution)]
      ∧ (handleCancel dbC8s (some 1)).2.orders
        = dbC8s.orders.map (fun x : Order =>
            if x.order_id == 1 then { x with status := statusCancelledWritten } else x)
      ∧ (handleCancel dbC8s (some 1)).1
        = CancelResult.canceledResult orderC8.remaining_amount dbC8s.now
            (fillRows (handleCancel dbC8s (some 1)).2 1)
      ∧ (0 < orderC8.amount →
          (handleCancel dbC8s (some 1)).2.accounts
            = dbC8s.accounts.map (fun a : Account =>
                if a.account_id == orderC8.account_id then
                  { a with balance := a.balance + orderC8.remaining_amount * orderC8.limit_price }
                else a)
            ∧ (handleCancel dbC8s (some 1)).2.positions = dbC8s.positions)
      ∧ (¬ 0 < orderC8.amount →
          (handleCancel dbC8s (some 1)).2.accounts = dbC8s.accounts
            ∧ (handleCancel dbC8s (some 1)).2.positions
              = dbC8s.positions.map (fun p : Position =>
                  if p.account_id == orderC8.account_id && p.symbol == orderC8.symbol then
                    { p with amount := p.amount + orderC8.remaining_amount }
                  else p)))
    ∧ ((handleCancel dbC8e (some 2)).2 = dbC8e
      ∧ ((handleCancel dbC8e (some 2)).1 = CancelResult.cancelError msgOrderNotFound
          ∨ (handleCancel dbC8e (some 2)).1 = CancelResult.cancelError msgCannotCancel)) :=
  ⟨(c8_cancel_semantics dbC8s 1).1 orderC8 rfl rfl (by decide),
   (c8_cancel_semantics dbC8e 2).2 (Or.inl rfl)⟩

/-- C10: confirmed.  `_handle_cancel` never reads the account id of the
enclosing `<transactions>` envelope: as long as the envelope account
passes the existence preflight, cancelling an order inside envelopes of
two different existing accounts yields the same response and the same
committed state; and when the cancel succeeds for a buy order, the
refund is credited to the balance of the order's own account,
whichever envelope account requested the cancel. -/
theorem c10_cancel_envelope_independent (db : DB) (a1 a2 : String) (t : ℕ)
    (h1 : (findAccount db a1).isSome = true) (h2 : (findAccount db a2).isSome = true) :
    handleTransaction db a1 [TxnChild.cancelChild (some t)]
        = handleTransaction db a2 [TxnChild.cancelChild (some t)]
      ∧ (∀ o, findOrder db t = some o → o.status = statusOpen → 0 < o.remaining_amount →
          0 < o.amount →
          ((handleTransaction db a1 [TxnChild.cancelChild (some t)]).2).accounts
            = db.accounts.map (fun a : Account =>
                if a.account_id == o.account_id then
                  { a with balance := a.balance + o.remaining_amount * o.limit_price }
                else a)) := by
  constructor
  · simp [handleTransaction, h1, h2, processChildren, processChild]
  · intro o hF hS hR hB
    have hcond : ¬ (o.status ≠ statusOpen ∨ o.remaining_amount ≤ 0) := by
      push_neg
      exact ⟨hS, hR⟩
    simp [handleTransaction, h1, processChildren, processChild, handleCancel, hF, hcond, hB,
      updateBalance]

/-- C10 witness: cancelling order 3 of `dbC10` inside envelopes of the
two existing accounts A and B gives identical outcomes, and the refund
lands on the balance of the order owner B. -/
theorem c10_cancel_envelope_independent_witness :
    handleTransaction dbC10 acctA [TxnChild.cancelChild (some 3)]
        = handleTransaction dbC10 acctB [TxnChild.cancelChild (some 3)]
      ∧ ((handleTransaction dbC10 acctA [TxnChild.cancelChild (some 3)]).2).accounts
        = dbC10.accounts.map (fun a : Account =>
            if a.account_id == orderC10.account_id then
              { a with balance := a.balance + orderC10.remaining_amount * orderC10.limit_price }
            else a) :=
  ⟨(c10_cancel_envelope_independent dbC10 acctA acctB 3 rfl rfl).1,
   (c10_cancel_envelope_independent dbC10 acctA acctB 3 rfl rfl).2 orderC10 rfl rfl
     (by decide) (by decide)⟩

end Exchange
